import Mathlib

/-!
Shallow embedding of the AYCF-Flight-Finder core (itinerary enumeration,
availability-check orchestration bookkeeping, and reconciliation) from the
Python sources:

  src/utils.py                       (compare_times, get_city, remove_duplicates_from_list)
  src/services/flight_finder.py      (FlightFinderService)
  src/services/data_manager.py       (DataManager checked-flights store)
  src/services/parallel_scraper.py   (manage_parallel_scraping chunking)
  src/services/rest_scraper.py       (manage_rest_scraping result recording)

Python strings holding already-parsed values are embedded in parsed form:
a "HH:MM" time string becomes an FTime record (strptime "%H:%M"), a
"Sat 28, December 2024" date string becomes an FDate record (strptime
"%a %d, %B %Y"; the weekday token carries no information), and a "UTC+2"
offset string becomes its integer hour offset.  Dict-shaped flight records
become structures with the same field names; Python dicts used as keyed
stores become insertion-ordered association lists.
-/

/-- A wall-clock time of day, the parsed form of an "HH:MM" string
(utils.py line 67: hours, minutes = map(int, time.split(":"))). -/
structure FTime where
  hours : Nat
  minutes : Nat
deriving DecidableEq

/-- A calendar date, the parsed form of a "%a %d, %B %Y" string such as
"Sat 28, December 2024" (the weekday token is parsed but does not
influence the resulting datetime value). -/
structure FDate where
  day : Nat
  month : Nat
  year : Nat
deriving DecidableEq

/-- One endpoint of a checked flight occurrence: the departure or arrival
sub-dict {city, time, timezone} built in rest_scraper.py lines 51-67.
The timezone field is the integer hour offset parsed from "UTC+X". -/
structure Endpoint where
  city : String
  time : FTime
  timezone : Int
deriving DecidableEq

/-- One checked flight occurrence, the entry dict built in
convert_response_to_checked_flight (rest_scraper.py lines 51-67):
arrival, carrier, date, departure, duration, flight_code, price. -/
structure CheckedFlight where
  arrival : Endpoint
  carrier : String
  date : FDate
  departure : Endpoint
  duration : String
  flight_code : String
  price : String
deriving DecidableEq

/-- A candidate leg dict {hash, airport, destination} as built in
flight_finder.py (the optional key "type" of round-trip legs is constant
"direct" and carried implicitly). -/
structure Leg where
  hash : String
  airport : String
  destination : String
deriving DecidableEq

/-- A one-way candidate dict {first_flight, second_flight} from
find_possible_one_stop_flights; second_flight is None for direct flights. -/
structure OneWayCandidate where
  first_flight : Leg
  second_flight : Option Leg
deriving DecidableEq

/-- A round-trip candidate dict {outward_flight, return_flight} from
find_possible_roundtrip_flights_from_airport; flight_set.get("return_flight")
in the reconciler can be None, so the field is optional. -/
structure RoundTripCandidate where
  outward_flight : Leg
  return_flight : Option Leg
deriving DecidableEq

/-- An available one-way itinerary {first_flight: [..], second_flight: [..] or None}
appended by find_available_oneway_flights. -/
structure AvailableFlight where
  first_flight : List CheckedFlight
  second_flight : Option (List CheckedFlight)
deriving DecidableEq

/-- An available round-trip itinerary {outward_flight: [..], return_flight: [..] or None}
appended by find_available_roundtrip_flights. -/
structure AvailableRoundTrip where
  outward_flight : List CheckedFlight
  return_flight : Option (List CheckedFlight)
deriving DecidableEq

/-- The checked-flights store: the dict data_manager.__checked_flights
['checked_flights'] mapping "hash-date" keys to a list of occurrences or
None, modelled as an insertion-ordered association list (Python dicts
preserve insertion order; keys are unique by construction). -/
abbrev Store : Type := List (String × Option (List CheckedFlight))

/-- A route graph: the dict data_manager.__airports_destinations mapping an
airport name to the list of its reachable airport names. -/
abbrev Graph : Type := List (String × List String)

/-- Dict lookup get_airport_destinations (data_manager.py lines 482-486):
the destination list of an airport, or [] when the airport is unknown. -/
def get_airport_destinations (g : Graph) (airport_name : String) : List String :=
  match g.find? (fun p => p.1 == airport_name) with
  | some p => p.2
  | none => []

/-- Character-level form of utils.get_city (utils.py line 413):
airport_name.split(" (")[0], the prefix before the first " (" occurrence. -/
def cityOfChars : List Char → List Char
  | [] => []
  | ' ' :: '(' :: _ => []
  | ch :: rest => ch :: cityOfChars rest

/-- utils.get_city: the city-name prefix of a full airport name such as
"Budapest (BUD)". -/
def get_city (s : String) : String := String.mk (cityOfChars s.data)

/-- The value of a parsed datetime in minutes, order-isomorphic to Python
datetime comparison for in-range fields (month 1-12, day 1-31, hours 0-23,
minutes 0-59, as guaranteed by strptime). -/
def datetimeKey (d : FDate) (t : FTime) : Nat :=
  (((d.year * 13 + d.month) * 32 + d.day) * 24 + t.hours) * 60 + t.minutes

/-- utils.compare_times (utils.py lines 48-75).  With both dates present it
compares the combined naive datetimes and returns datetime1 > datetime2
when they differ; on equal datetimes (and when a date is missing) it falls
through to the plain time-of-day comparison.  No use is made of the
timezone fields. -/
def compare_times (time1 time2 : FTime) (date1 date2 : Option FDate) : Bool :=
  let timeCmp : Bool :=
    if time1.hours > time2.hours then true
    else if time1.hours == time2.hours && time1.minutes > time2.minutes then true
    else false
  match date1, date2 with
  | some d1, some d2 =>
    if datetimeKey d1 time1 == datetimeKey d2 time2 then timeCmp
    else decide (datetimeKey d1 time1 > datetimeKey d2 time2)
  | _, _ => timeCmp

/-- Recursion underlying utils.remove_duplicates_from_list: keep the first
occurrence of each element, tracking the set of already-seen keys. -/
def removeDuplicatesAux {α : Type} [DecidableEq α] (seen : List α) : List α → List α
  | [] => []
  | x :: xs =>
    if x ∈ seen then removeDuplicatesAux seen xs
    else x :: removeDuplicatesAux (x :: seen) xs

/-- utils.remove_duplicates_from_list with the default key extractor: the
make_hashable image of a record is compared, and make_hashable is injective
on the nested dict/list/string records deduplicated here (a dict is mapped
to the frozenset of its key-value pairs, recoverable because dict keys are
unique), so the dedup key is structural equality of the record itself. -/
def remove_duplicates_from_list {α : Type} [DecidableEq α] (l : List α) : List α :=
  removeDuplicatesAux [] l

/-- Model of hashlib.sha256(f"{a}-{b}".encode()).hexdigest(): a
deterministic function of the origin-destination pair; the digest itself is
opaque to every property here, so the pair string stands in for it. -/
def legHash (a b : String) : String := a ++ "-" ++ b

/-- The round-trip candidate dict appended at flight_finder.py lines 42-56:
outward leg airport to destination, return leg destination to departure. -/
def roundTripCand (airport destination departure_airport : String) : RoundTripCandidate :=
  { outward_flight := { hash := legHash airport destination,
                        airport := airport, destination := destination },
    return_flight := some { hash := legHash destination departure_airport,
                            airport := destination, destination := departure_airport } }

/-- FlightFinderService.find_possible_roundtrip_flights_from_airport
(flight_finder.py lines 20-59): destinations of the given airport are
filtered to the destination-airport set, and for each such destination every
departure airport that the destination can reach directly yields one
round-trip candidate.  The departure and destination airport sets are the
config values (or the all-airports default) held by the service. -/
def find_possible_roundtrip_flights_from_airport (g : Graph)
    (departure_airports destination_airports : List String)
    (airport : String) : List RoundTripCandidate :=
  let destinations :=
    (get_airport_destinations g airport).filter
      (fun destination => decide (destination ∈ destination_airports))
  destinations.flatMap (fun destination =>
    (departure_airports.filter
      (fun departure_airport =>
        decide (departure_airport ∈ get_airport_destinations g destination))).map
      (roundTripCand airport destination))

/-- The direct candidate dict appended at flight_finder.py lines 109-117. -/
def directCand (airport destination : String) : OneWayCandidate :=
  { first_flight := { hash := legHash airport destination,
                      airport := airport, destination := destination },
    second_flight := none }

/-- The one-stop candidate dict appended at flight_finder.py lines 124-136:
first leg from the BFS start to the current airport, second leg from the
current airport to the destination. -/
def oneStopCand (airport current destination : String) : OneWayCandidate :=
  { first_flight := { hash := legHash airport current,
                      airport := airport, destination := current },
    second_flight := some { hash := legHash current destination,
                            airport := current, destination := destination } }

/-- The inner for-loop of the BFS in find_possible_one_stop_flights
(flight_finder.py lines 101-139), processing the destination list of the
currently popped airport: a destination already visited is skipped entirely
when depth is 0; otherwise a direct candidate is emitted at depth 0 and a
one-stop candidate at depth 1 (destination-set membership and max_stops
permitting), and the destination is appended to the queue at depth + 1.
Returns (emitted flights, appended queue entries) in iteration order. -/
def process_destinations (airport current : String) (depth max_stops : Nat)
    (destination_airports visited : List String) :
    List String → List OneWayCandidate × List (String × Nat)
  | [] => ([], [])
  | d :: ds =>
    let rest := process_destinations airport current depth max_stops destination_airports visited ds
    if d ∈ visited ∧ depth = 0 then rest
    else
      let newFlights :=
        if depth = 0 ∧ d ∈ destination_airports then [directCand airport d]
        else if depth = 1 ∧ d ∈ destination_airports ∧ 0 < max_stops then
          [oneStopCand airport current d]
        else []
      (newFlights ++ rest.1, (d, depth + 1) :: rest.2)

/-- One more than an upper bound on the length of any destination list in
the graph, used as the branching bound of the BFS termination measure. -/
def graphBound (g : Graph) : Nat := (g.map (fun p => p.2.length)).sum + 1

/-- Termination weight of a queue entry: entries at depth beyond
max_stops + 1 never enqueue anything, deeper levels branch by at most
graphBound - 1. -/
def entryWeight (b m : Nat) (e : String × Nat) : Nat := b ^ (m + 1 - min e.2 (m + 1))

/-- Termination measure of the BFS: total weight of the pending queue. -/
def queueMeasure (b m : Nat) (q : List (String × Nat)) : Nat :=
  (q.map (entryWeight b m)).sum

theorem get_airport_destinations_length_lt (g : Graph) (a : String) :
    (get_airport_destinations g a).length < graphBound g := by
  unfold get_airport_destinations graphBound
  cases hf : g.find? (fun p => p.1 == a) with
  | none => simp
  | some p =>
    show p.2.length < (g.map (fun q => q.2.length)).sum + 1
    have hp : p ∈ g := List.mem_of_find?_eq_some hf
    have hm : p.2.length ∈ g.map (fun q => q.2.length) := List.mem_map_of_mem _ hp
    have hle : p.2.length ≤ (g.map (fun q => q.2.length)).sum :=
      List.single_le_sum (fun x _ => Nat.zero_le x) _ hm
    omega

theorem process_destinations_snd (airport current : String) (depth max_stops : Nat)
    (destination_airports visited : List String) (ds : List String) :
    (process_destinations airport current depth max_stops destination_airports visited ds).2 =
      (ds.filter (fun d => !(decide (d ∈ visited ∧ depth = 0)))).map (fun d => (d, depth + 1)) := by
  induction ds with
  | nil => rfl
  | cons d ds ih =>
    by_cases h : d ∈ visited ∧ depth = 0
    · have hc : (!(decide (d ∈ visited ∧ depth = 0))) = false := by simp [h]
      simp only [process_destinations, if_pos h, List.filter_cons, hc, ih, Bool.false_eq_true,
        if_false]
    · have hc : (!(decide (d ∈ visited ∧ depth = 0))) = true := by simp [h]
      simp only [process_destinations, if_neg h, List.filter_cons, hc, ih, if_true,
        List.map_cons]

theorem sum_map_const {α : Type} (l : List α) (c : Nat) :
    ((l.map (fun _ => c)).sum : Nat) = l.length * c := by
  induction l with
  | nil => simp
  | cons x xs ih => simp [ih, Nat.succ_mul, Nat.add_comm]

/-- Python set.add on the visited set, modelled on a duplicate-free list. -/
def insertVisited (a : String) (v : List String) : List String :=
  if a ∈ v then v else a :: v

theorem process_snd_measure_lt (g : Graph) (airport current : String)
    (depth max_stops : Nat) (destination_airports visited : List String)
    (hdep : depth ≤ max_stops) :
    queueMeasure (graphBound g) max_stops
      (process_destinations airport current depth max_stops destination_airports visited
        (get_airport_destinations g current)).2
    < entryWeight (graphBound g) max_stops (current, depth) := by
  have hb : 1 ≤ graphBound g := by unfold graphBound; omega
  have hmin : min depth (max_stops + 1) = depth := by omega
  have hmin' : min (depth + 1) (max_stops + 1) = depth + 1 := by omega
  rw [process_destinations_snd]
  unfold queueMeasure entryWeight
  rw [List.map_map]
  have hfun : ((fun e : String × Nat => graphBound g ^ (max_stops + 1 - min e.2 (max_stops + 1)))
      ∘ (fun d : String => (d, depth + 1))) =
      (fun _ : String => graphBound g ^ (max_stops + 1 - (depth + 1))) := by
    funext d
    simp [hmin']
  rw [hfun, sum_map_const]
  simp only [hmin]
  have hlen : ((get_airport_destinations g current).filter
      (fun d => !(decide (d ∈ visited ∧ depth = 0)))).length < graphBound g :=
    Nat.lt_of_le_of_lt (List.length_filter_le _ _) (get_airport_destinations_length_lt g current)
  have hpow : 0 < graphBound g ^ (max_stops + 1 - (depth + 1)) := Nat.pos_pow_of_pos _ hb
  have hexp : max_stops + 1 - depth = (max_stops + 1 - (depth + 1)) + 1 := by omega
  calc ((get_airport_destinations g current).filter
          (fun d => !(decide (d ∈ visited ∧ depth = 0)))).length
          * graphBound g ^ (max_stops + 1 - (depth + 1))
      < graphBound g * graphBound g ^ (max_stops + 1 - (depth + 1)) :=
        Nat.mul_lt_mul_of_pos_right hlen hpow
    _ = graphBound g ^ (max_stops + 1 - depth) := by
        rw [hexp, pow_succ, Nat.mul_comm]

theorem entryWeight_pos (g : Graph) (max_stops : Nat) (e : String × Nat) :
    0 < entryWeight (graphBound g) max_stops e := by
  have hb : 1 ≤ graphBound g := by unfold graphBound; omega
  exact Nat.pos_pow_of_pos _ hb

/-- The BFS while-loop of find_possible_one_stop_flights (flight_finder.py
lines 92-139): pop (current, depth); skip it when depth exceeds max_stops;
otherwise add current to the visited set, process its destination list, and
continue with the extended queue and flight list. -/
def one_stop_loop (g : Graph) (destination_airports : List String)
    (airport : String) (max_stops : Nat) :
    List (String × Nat) → List String → List OneWayCandidate → List OneWayCandidate
  | [], _, flights => flights
  | (current, depth) :: rest, visited, flights =>
    if depth > max_stops then
      one_stop_loop g destination_airports airport max_stops rest visited flights
    else
      one_stop_loop g destination_airports airport max_stops
        (rest ++ (process_destinations airport current depth max_stops destination_airports
          (insertVisited current visited) (get_airport_destinations g current)).2)
        (insertVisited current visited)
        (flights ++ (process_destinations airport current depth max_stops destination_airports
          (insertVisited current visited) (get_airport_destinations g current)).1)
  termination_by q _ _ => queueMeasure (graphBound g) max_stops q
  decreasing_by
  · simp only [queueMeasure, List.map_cons, List.sum_cons]
    have := entryWeight_pos g max_stops (current, depth)
    omega
  · rename_i hd
    have hdep : depth ≤ max_stops := Nat.le_of_not_lt hd
    have hlt := process_snd_measure_lt g airport current depth max_stops destination_airports
      (insertVisited current visited) hdep
    simp only [queueMeasure, List.map_append, List.sum_append, List.map_cons,
      List.sum_cons] at hlt ⊢
    omega

/-- FlightFinderService.find_possible_one_stop_flights (flight_finder.py
lines 74-145): a given max_stops above 1 is clamped to 1, and for each
departure airport a fresh BFS is run from the queue [(airport, 0)] with an
empty visited set; the emitted flight lists are concatenated in departure
order. -/
def find_possible_one_stop_flights (g : Graph)
    (departure_airports destination_airports : List String)
    (max_stops : Nat) : List OneWayCandidate :=
  let m := if max_stops > 1 then 1 else max_stops
  departure_airports.flatMap (fun airport =>
    one_stop_loop g destination_airports airport m [(airport, 0)] [] [])

/-- The matching scan shared by both reconciler functions (flight_finder.py
lines 187-195, 207-215, 251-259, 268-275): iterate over all values of the
checked-flights dict in insertion order, skip falsy values (None or an
empty list), and collect every occurrence whose departure city is the city
of the leg's origin airport and whose arrival city is the city of the leg's
destination airport. -/
def matching_checked_flights (checked : Store) (leg : Leg) : List CheckedFlight :=
  ((checked.map (fun p => p.2.getD [])).flatten).filter
    (fun f => f.departure.city == get_city leg.airport
      && f.arrival.city == get_city leg.destination)

/-- FlightFinderService.find_available_oneway_flights (flight_finder.py
lines 169-234) as a function of the possible-flights list and the
checked-flights store: per candidate, direct candidates yield one itinerary
per matching first-leg occurrence, two-leg candidates yield one itinerary
per occurrence pair that passes the compare_times sequencing check, and the
collected list is deduplicated at the end. -/
def find_available_oneway_flights (possible : List OneWayCandidate)
    (checked : Store) : List AvailableFlight :=
  remove_duplicates_from_list
    (possible.flatMap (fun flight_set =>
      let matching_first := matching_checked_flights checked flight_set.first_flight
      match flight_set.second_flight with
      | none => matching_first.map (fun matched_first =>
          { first_flight := [matched_first], second_flight := none })
      | some second_flight =>
        let matching_second := matching_checked_flights checked second_flight
        matching_first.flatMap (fun first_checked =>
          (matching_second.filter (fun second_checked =>
            compare_times second_checked.departure.time first_checked.arrival.time
              (some second_checked.date) (some first_checked.date))).map
            (fun second_checked =>
              { first_flight := [first_checked],
                second_flight := some [second_checked] }))))

/-- FlightFinderService.find_available_roundtrip_flights (flight_finder.py
lines 236-304): per candidate, a candidate with no matching outward
occurrence is skipped; matching return occurrences are collected only when
the candidate has a return leg; for each matching outward occurrence, a
candidate without a return leg yields an itinerary with a null return,
otherwise one itinerary is emitted per return occurrence passing the
compare_times sequencing check; the collected list is deduplicated. -/
def find_available_roundtrip_flights (possible : List RoundTripCandidate)
    (checked : Store) : List AvailableRoundTrip :=
  remove_duplicates_from_list
    (possible.flatMap (fun flight_set =>
      let matching_outward := matching_checked_flights checked flight_set.outward_flight
      if matching_outward = [] then []
      else
        let matching_return :=
          match flight_set.return_flight with
          | some return_flight => matching_checked_flights checked return_flight
          | none => []
        matching_outward.flatMap (fun outward_checked =>
          match flight_set.return_flight with
          | none => [{ outward_flight := [outward_checked], return_flight := none }]
          | some _ =>
            (matching_return.filter (fun return_checked =>
              compare_times return_checked.departure.time outward_checked.arrival.time
                (some return_checked.date) (some outward_checked.date))).map
              (fun return_checked =>
                { outward_flight := [outward_checked],
                  return_flight := some [return_checked] }))))

/-- Python dict item assignment checked_flights[key] = value on the
association-list store: replace the value at an existing key in place, or
append the new binding at the end. -/
def storePut (st : Store) (k : String) (v : Option (List CheckedFlight)) : Store :=
  match st with
  | [] => [(k, v)]
  | p :: rest => if p.1 = k then (k, v) :: rest else p :: storePut rest k v

/-- Python dict .get(key) on the association-list store. -/
def storeGet (st : Store) (k : String) : Option (Option (List CheckedFlight)) :=
  match st.find? (fun p => p.1 == k) with
  | some p => some p.2
  | none => none

/-- DataManager.add_checked_flight (data_manager.py lines 504-510): under
the write lock, set checked_flights[f"{flight['hash']}-{date}"] = result.
The function is total: a repeated write raises nothing. -/
def add_checked_flight (st : Store) (flight : Leg) (result : Option (List CheckedFlight))
    (date : String) : Store :=
  storePut st (flight.hash ++ "-" ++ date) result

/-- One raw flight object of the REST response's flightsOutbound array,
with times and dates already parsed: a "%I:%M %p" time becomes (hour12,
minutes, pm) and the ISO departure date becomes an FDate (rest_scraper.py
lines 42-67 read exactly these fields). -/
structure WizzFlight where
  arrivalStationText : String
  departureStationText : String
  carrierText : String
  duration : String
  flightCode : String
  currency : String
  totalPrice : String
  departureDate : FDate
  departureHour12 : Nat
  departureMinutes : Nat
  departurePm : Bool
  arrivalHour12 : Nat
  arrivalMinutes : Nat
  arrivalPm : Bool
  departureOffset : Int
  arrivalOffset : Int
deriving DecidableEq

/-- The 12-hour to 24-hour conversion to_24h (rest_scraper.py lines 44-45):
strptime "%I:%M %p" then strftime "%H:%M". -/
def to_24h (hour12 minutes : Nat) (pm : Bool) : FTime :=
  { hours := hour12 % 12 + (if pm then 12 else 0), minutes := minutes }

/-- convert_response_to_checked_flight (rest_scraper.py lines 42-71): build
the occurrence entry from the response flight and append it under the
"hash-date" key; a falsy existing value (missing key, None, or empty list)
is replaced by a fresh one-element list. -/
def convert_response_to_checked_flight (f : WizzFlight) (hash_ date : String)
    (checked : Store) : Store :=
  let entry : CheckedFlight :=
    { arrival := { city := f.arrivalStationText,
                   time := to_24h f.arrivalHour12 f.arrivalMinutes f.arrivalPm,
                   timezone := f.arrivalOffset },
      carrier := f.carrierText,
      date := f.departureDate,
      departure := { city := f.departureStationText,
                     time := to_24h f.departureHour12 f.departureMinutes f.departurePm,
                     timezone := f.departureOffset },
      duration := f.duration,
      flight_code := f.flightCode,
      price := f.currency ++ " " ++ f.totalPrice }
  let entry_key := hash_ ++ "-" ++ date
  match storeGet checked entry_key with
  | some (some (e :: es)) => storePut checked entry_key (some (e :: es ++ [entry]))
  | _ => storePut checked entry_key (some [entry])

/-- The observable outcome of one send_request_with_retries call inside
manage_rest_scraping: either every retry failed (response is None), or the
request succeeded and the response carried the given flightsOutbound list
(a missing or null array is the empty list, both falsy in the source). -/
inductive RestCheckOutcome where
  | failure : RestCheckOutcome
  | success : List WizzFlight → RestCheckOutcome
deriving DecidableEq

/-- The checked-flights bookkeeping of one iteration of the request loop of
manage_rest_scraping (rest_scraper.py lines 144-167): after exhausted
retries write None under "hash-date" and continue; on success convert each
returned flight, or write None when the response carried no flights. -/
def manage_rest_record (checked : Store) (hash_ date : String)
    (outcome : RestCheckOutcome) : Store :=
  match outcome with
  | .failure => storePut checked (hash_ ++ "-" ++ date) none
  | .success response_flights =>
    match response_flights with
    | [] => storePut checked (hash_ ++ "-" ++ date) none
    | fs => fs.foldl (fun st f => convert_response_to_checked_flight f hash_ date st) checked

/-- The full request loop of manage_rest_scraping over its (hash, date,
outcome) sequence: each iteration records its outcome and the loop always
proceeds to the next pair (pacing pauses and session refreshes do not touch
the store). -/
def manage_rest_process (checked : Store) :
    List (String × String × RestCheckOutcome) → Store
  | [] => checked
  | (hash_, date, outcome) :: rest =>
    manage_rest_process (manage_rest_record checked hash_ date outcome) rest

/-- The list slicing [lst[i:i+c] for i in range(0, len(lst), c)] of
manage_parallel_scraping (parallel_scraper.py line 101); the Python range
step c is always at least 1 at the call site (chunk_size = max(1, ..)). -/
def slice_chunks {α : Type} (c : Nat) : List α → List (List α)
  | [] => []
  | x :: xs => ((x :: xs).take c) :: slice_chunks c (xs.drop (c - 1))
  termination_by l => l.length
  decreasing_by
    simp [List.length_drop]
    omega

/-- The chunk partitioning of manage_parallel_scraping (parallel_scraper.py
lines 99-101): chunk_size = max(1, len(possible_flights) // max_workers),
then contiguous slices of that size; one worker process is started per
chunk (lines 104-108). -/
def manage_parallel_scraping_chunks {α : Type} (possible_flights : List α)
    (max_workers : Nat) : List (List α) :=
  slice_chunks (max 1 (possible_flights.length / max_workers)) possible_flights

/-- Spec-side notion of an instant: the local date and time adjusted by the
UTC offset, in minutes (spec section 4.4, "offset-adjusted instants"). -/
def instantMinutes (d : FDate) (t : FTime) (offsetHours : Int) : Int :=
  (datetimeKey d t : Int) - offsetHours * 60

/-- Spec-side departure instant of an occurrence: its date and departure
local time adjusted by the departure UTC offset. -/
def depInstant (f : CheckedFlight) : Int :=
  instantMinutes f.date f.departure.time f.departure.timezone

/-- Spec-side arrival instant of an occurrence: its date and arrival local
time adjusted by the arrival UTC offset. -/
def arrInstant (f : CheckedFlight) : Int :=
  instantMinutes f.date f.arrival.time f.arrival.timezone

/-- Spec-side violation predicate for a two-leg available itinerary: some
second-leg occurrence's departure instant is earlier than some first-leg
occurrence's arrival instant (offset-adjusted, spec section 4.4). -/
def violatesInstantOrder (it : AvailableFlight) : Bool :=
  match it.second_flight with
  | none => false
  | some seconds =>
    it.first_flight.any (fun f1 => seconds.any (fun f2 => decide (depInstant f2 < arrInstant f1)))

theorem mem_removeDuplicatesAux {α : Type} [DecidableEq α] (seen : List α) (l : List α)
    (a : α) : a ∈ removeDuplicatesAux seen l ↔ a ∈ l ∧ a ∉ seen := by
  induction l generalizing seen with
  | nil => simp [removeDuplicatesAux]
  | cons x xs ih =>
    by_cases hx : x ∈ seen
    · rw [removeDuplicatesAux, if_pos hx, ih]
      simp only [List.mem_cons]
      constructor
      · rintro ⟨h1, h2⟩
        exact ⟨Or.inr h1, h2⟩
      · rintro ⟨h1 | h1, h2⟩
        · exact absurd (h1 ▸ hx) h2
        · exact ⟨h1, h2⟩
    · rw [removeDuplicatesAux, if_neg hx]
      simp only [List.mem_cons, ih]
      constructor
      · rintro (rfl | ⟨h1, h2⟩)
        · exact ⟨Or.inl rfl, hx⟩
        · have hns : a ∉ seen := fun hs => h2 (Or.inr hs)
          exact ⟨Or.inr h1, hns⟩
      · rintro ⟨rfl | h1, h2⟩
        · exact Or.inl rfl
        · by_cases hax : a = x
          · exact Or.inl hax
          · refine Or.inr ⟨h1, fun hs => ?_⟩
            rcases hs with h | h
            · exact hax h
            · exact h2 h

theorem mem_remove_duplicates {α : Type} [DecidableEq α] (l : List α) (a : α) :
    a ∈ remove_duplicates_from_list l ↔ a ∈ l := by
  rw [remove_duplicates_from_list, mem_removeDuplicatesAux]
  simp

theorem pairwise_ne_removeDuplicatesAux {α : Type} [DecidableEq α] (seen : List α)
    (l : List α) : (removeDuplicatesAux seen l).Pairwise (fun a b => a ≠ b) := by
  induction l generalizing seen with
  | nil => simp [removeDuplicatesAux]
  | cons x xs ih =>
    by_cases hx : x ∈ seen
    · rw [removeDuplicatesAux, if_pos hx]
      exact ih seen
    · rw [removeDuplicatesAux, if_neg hx]
      refine List.Pairwise.cons ?_ (ih (x :: seen))
      intro b hb
      have := (mem_removeDuplicatesAux (x :: seen) xs b).mp hb
      intro hxb
      exact this.2 (hxb ▸ List.mem_cons_self x seen)

theorem pairwise_ne_remove_duplicates {α : Type} [DecidableEq α] (l : List α) :
    (remove_duplicates_from_list l).Pairwise (fun a b => a ≠ b) :=
  pairwise_ne_removeDuplicatesAux [] l

theorem process_destinations_fst_shape (airport current : String) (depth max_stops : Nat)
    (destination_airports visited : List String) (ds : List String) (c : OneWayCandidate)
    (hc : c ∈ (process_destinations airport current depth max_stops destination_airports
      visited ds).1) :
    (depth = 0 ∧ ∃ d, c = directCand airport d) ∨
      (depth = 1 ∧ 0 < max_stops ∧ ∃ d, c = oneStopCand airport current d) := by
  induction ds with
  | nil => exact absurd hc (List.not_mem_nil c)
  | cons d ds ih =>
    rw [process_destinations] at hc
    by_cases h : d ∈ visited ∧ depth = 0
    · rw [if_pos h] at hc
      exact ih hc
    · rw [if_neg h] at hc
      simp only [List.mem_append] at hc
      rcases hc with hnew | hrest
      · by_cases h0 : depth = 0 ∧ d ∈ destination_airports
        · rw [if_pos h0] at hnew
          rcases List.mem_singleton.mp hnew with rfl
          exact Or.inl ⟨h0.1, d, rfl⟩
        · rw [if_neg h0] at hnew
          by_cases h1 : depth = 1 ∧ d ∈ destination_airports ∧ 0 < max_stops
          · rw [if_pos h1] at hnew
            rcases List.mem_singleton.mp hnew with rfl
            exact Or.inr ⟨h1.1, h1.2.2, d, rfl⟩
          · rw [if_neg h1] at hnew
            exact absurd hnew (List.not_mem_nil c)
      · exact ih hrest

theorem one_stop_loop_shape (g : Graph) (destination_airports : List String)
    (airport : String) (max_stops : Nat) (q : List (String × Nat))
    (visited : List String) (flights : List OneWayCandidate) (c : OneWayCandidate)
    (hc : c ∈ one_stop_loop g destination_airports airport max_stops q visited flights) :
    c ∈ flights ∨ (∃ d, c = directCand airport d) ∨
      (0 < max_stops ∧ ∃ cur d, c = oneStopCand airport cur d) := by
  induction q, visited, flights using one_stop_loop.induct g destination_airports airport max_stops with
  | case1 visited flights =>
    rw [one_stop_loop] at hc
    exact Or.inl hc
  | case2 current depth rest visited flights hdgt ih =>
    rw [one_stop_loop, if_pos hdgt] at hc
    exact ih hc
  | case3 current depth rest visited flights hdgt ih =>
    rw [one_stop_loop, if_neg hdgt] at hc
    rcases ih hc with hin | hshape
    · rcases List.mem_append.mp hin with hfl | hpr
      · exact Or.inl hfl
      · rcases process_destinations_fst_shape _ _ _ _ _ _ _ _ hpr with ⟨_, hd⟩ | ⟨_, hm, hd⟩
        · exact Or.inr (Or.inl hd)
        · rcases hd with ⟨d, hd⟩
          exact Or.inr (Or.inr ⟨hm, current, d, hd⟩)
    · exact Or.inr hshape

theorem find_possible_one_stop_flights_shape (g : Graph)
    (departure_airports destination_airports : List String) (max_stops : Nat)
    (c : OneWayCandidate)
    (hc : c ∈ find_possible_one_stop_flights g departure_airports destination_airports
      max_stops) :
    (∃ a d, c = directCand a d) ∨ (∃ a cur d, c = oneStopCand a cur d) := by
  rw [find_possible_one_stop_flights] at hc
  simp only [List.mem_flatMap] at hc
  rcases hc with ⟨airport, _, hloop⟩
  rcases one_stop_loop_shape _ _ _ _ _ _ _ _ hloop with hnil | ⟨d, hd⟩ | ⟨_, cur, d, hd⟩
  · exact absurd hnil (List.not_mem_nil c)
  · exact Or.inl ⟨airport, d, hd⟩
  · exact Or.inr ⟨airport, cur, d, hd⟩

theorem compare_times_not_lt (t1 t2 : FTime) (d1 d2 : FDate)
    (h : compare_times t1 t2 (some d1) (some d2) = true) :
    ¬ (datetimeKey d1 t1 < datetimeKey d2 t2) := by
  intro hlt
  have hne : (datetimeKey d1 t1 == datetimeKey d2 t2) = false := by
    simp only [beq_eq_false_iff_ne, ne_eq]
    omega
  simp only [compare_times, hne, Bool.false_eq_true, if_false, decide_eq_true_eq] at h
  omega

theorem storePut_idem (st : Store) (k : String) (v : Option (List CheckedFlight)) :
    storePut (storePut st k v) k v = storePut st k v := by
  induction st with
  | nil => simp [storePut]
  | cons p rest ih =>
    by_cases h : p.1 = k
    · simp [storePut, h]
    · simp [storePut, h, ih]

theorem slice_chunks_flatten {α : Type} (c : Nat) (hc : 1 ≤ c) (l : List α) :
    (slice_chunks c l).flatten = l := by
  induction l using slice_chunks.induct c with
  | case1 => simp [slice_chunks]
  | case2 x xs ih =>
    simp only [slice_chunks, List.flatten_cons, ih]
    have ht : (x :: xs).take c = x :: xs.take (c - 1) := by
      cases c with
      | zero => omega
      | succ n => simp
    rw [ht]
    simp [List.take_append_drop]

theorem slice_chunks_length {α : Type} (c : Nat) (hc : 1 ≤ c) (l : List α) :
    (slice_chunks c l).length = (l.length + c - 1) / c := by
  induction l using slice_chunks.induct c with
  | case1 =>
    rw [slice_chunks]
    simp only [List.length_nil]
    rw [Nat.div_eq_of_lt (by omega)]
  | case2 x xs ih =>
    rw [slice_chunks]
    simp only [List.length_cons, List.length_drop] at ih ⊢
    rw [ih]
    have hrhs : xs.length + 1 + c - 1 = xs.length + c := by omega
    rw [hrhs, Nat.add_div_right _ (by omega : 0 < c)]
    by_cases hcn : c - 1 ≤ xs.length
    · have : xs.length - (c - 1) + c - 1 = xs.length := by omega
      rw [this]
    · have h0 : xs.length - (c - 1) = 0 := by omega
      rw [h0]
      have hlt1 : 0 + c - 1 < c := by omega
      have hlt2 : xs.length < c := by omega
      rw [Nat.div_eq_of_lt hlt1, Nat.div_eq_of_lt hlt2]

theorem roundtrip_none_return_emits (possible : List RoundTripCandidate) (checked : Store)
    (flight_set : RoundTripCandidate) (hin : flight_set ∈ possible)
    (hret : flight_set.return_flight = none) (oc : CheckedFlight)
    (hoc : oc ∈ matching_checked_flights checked flight_set.outward_flight) :
    ({ outward_flight := [oc], return_flight := none } : AvailableRoundTrip)
      ∈ find_available_roundtrip_flights possible checked := by
  rw [find_available_roundtrip_flights, mem_remove_duplicates]
  simp only [List.mem_flatMap]
  refine ⟨flight_set, hin, ?_⟩
  have hne : ¬ (matching_checked_flights checked flight_set.outward_flight = []) := by
    intro h
    rw [h] at hoc
    exact absurd hoc (List.not_mem_nil oc)
  rw [if_neg hne]
  simp only [List.mem_flatMap]
  refine ⟨oc, hoc, ?_⟩
  rw [hret]
  exact List.mem_singleton.mpr rfl

theorem flatMap_const_nil {α β : Type} (l : List α) :
    (l.flatMap (fun _ => ([] : List β))) = [] := by
  induction l with
  | nil => rfl
  | cons x xs ih => simp [ih]

theorem roundtrip_unmatched_return_dropped (checked : Store)
    (flight_set : RoundTripCandidate) (return_flight : Leg)
    (hret : flight_set.return_flight = some return_flight)
    (hnone : matching_checked_flights checked return_flight = []) :
    find_available_roundtrip_flights [flight_set] checked = [] := by
  rw [find_available_roundtrip_flights]
  by_cases hmo : matching_checked_flights checked flight_set.outward_flight = []
  · simp only [List.flatMap_cons, List.flatMap_nil, List.append_nil, if_pos hmo]
    rfl
  · simp only [List.flatMap_cons, List.flatMap_nil, List.append_nil, if_neg hmo, hret, hnone,
      List.filter_nil, List.map_nil, flatMap_const_nil]
    rfl

theorem mem_find_available_oneway_shape (possible : List OneWayCandidate) (checked : Store)
    (it : AvailableFlight) (hit : it ∈ find_available_oneway_flights possible checked) :
    (∃ f1, it = { first_flight := [f1], second_flight := none }) ∨
      (∃ f1 f2, it = { first_flight := [f1], second_flight := some [f2] } ∧
        compare_times f2.departure.time f1.arrival.time (some f2.date) (some f1.date)
          = true) := by
  rw [find_available_oneway_flights, mem_remove_duplicates] at hit
  simp only [List.mem_flatMap] at hit
  rcases hit with ⟨flight_set, _, hbody⟩
  cases hsf : flight_set.second_flight with
  | none =>
    rw [hsf] at hbody
    simp only [List.mem_map] at hbody
    rcases hbody with ⟨f1, _, heq⟩
    exact Or.inl ⟨f1, heq.symm⟩
  | some second_flight =>
    rw [hsf] at hbody
    simp only [List.mem_flatMap, List.mem_map, List.mem_filter] at hbody
    rcases hbody with ⟨f1, _, f2, ⟨_, hcmp⟩, heq⟩
    exact Or.inr ⟨f1, f2, heq.symm, hcmp⟩

theorem mem_find_available_roundtrip_shape (possible : List RoundTripCandidate)
    (checked : Store) (it : AvailableRoundTrip)
    (hit : it ∈ find_available_roundtrip_flights possible checked) :
    (∃ f1, it = { outward_flight := [f1], return_flight := none }) ∨
      (∃ f1 f2, it = { outward_flight := [f1], return_flight := some [f2] } ∧
        compare_times f2.departure.time f1.arrival.time (some f2.date) (some f1.date)
          = true) := by
  rw [find_available_roundtrip_flights, mem_remove_duplicates] at hit
  simp only [List.mem_flatMap] at hit
  rcases hit with ⟨flight_set, _, hbody⟩
  by_cases hmo : matching_checked_flights checked flight_set.outward_flight = []
  · rw [if_pos hmo] at hbody
    exact absurd hbody (List.not_mem_nil it)
  · rw [if_neg hmo] at hbody
    simp only [List.mem_flatMap] at hbody
    rcases hbody with ⟨f1, _, hinner⟩
    cases hrf : flight_set.return_flight with
    | none =>
      rw [hrf] at hinner
      rcases List.mem_singleton.mp hinner with rfl
      exact Or.inl ⟨f1, rfl⟩
    | some return_flight =>
      rw [hrf] at hinner
      simp only [List.mem_map, List.mem_filter] at hinner
      rcases hinner with ⟨f2, ⟨_, hcmp⟩, heq⟩
      exact Or.inr ⟨f1, f2, heq.symm, hcmp⟩

/-- Concrete one-stop candidate Alpha to Gamma via Beta used by the C1
counterexample and witness. -/
def cexFirstLeg : Leg :=
  { hash := legHash "Alpha (AAA)" "Beta (BBB)",
    airport := "Alpha (AAA)", destination := "Beta (BBB)" }

/-- Second leg of the concrete one-stop candidate. -/
def cexSecondLeg : Leg :=
  { hash := legHash "Beta (BBB)" "Gamma (CCC)",
    airport := "Beta (BBB)", destination := "Gamma (CCC)" }

/-- The concrete one-stop candidate. -/
def cexOneStopCandidate : OneWayCandidate :=
  { first_flight := cexFirstLeg, second_flight := some cexSecondLeg }

/-- A checked occurrence of the first leg: arrives in Beta at 10:00 local
time, UTC offset 0, so its arrival instant is 10:00 UTC. -/
def cexFirstOcc : CheckedFlight :=
  { arrival := { city := "Beta", time := { hours := 10, minutes := 0 }, timezone := 0 },
    carrier := "W6", date := { day := 28, month := 12, year := 2024 },
    departure := { city := "Alpha", time := { hours := 8, minutes := 0 }, timezone := 0 },
    duration := "2h 00m", flight_code := "W6 1001", price := "EUR 10.00" }

/-- A checked occurrence of the second leg on the same date: departs Beta
at 10:30 local time with UTC offset +2, so its departure instant is 08:30
UTC, one and a half hours before the first leg arrives. -/
def cexSecondOcc : CheckedFlight :=
  { arrival := { city := "Gamma", time := { hours := 12, minutes := 0 }, timezone := 2 },
    carrier := "W6", date := { day := 28, month := 12, year := 2024 },
    departure := { city := "Beta", time := { hours := 10, minutes := 30 }, timezone := 2 },
    duration := "1h 30m", flight_code := "W6 1002", price := "EUR 10.00" }

/-- A checked-flights store holding the two occurrences above. -/
def cexChecked : Store :=
  [(cexFirstLeg.hash ++ "-28-12-2024", some [cexFirstOcc]),
   (cexSecondLeg.hash ++ "-28-12-2024", some [cexSecondOcc])]

/-- The itinerary the reconciler emits for the concrete candidate. -/
def cexBadItinerary : AvailableFlight :=
  { first_flight := [cexFirstOcc], second_flight := some [cexSecondOcc] }

/-- C1 counterexample: the reconciler emits a two-leg itinerary whose
second-leg departure instant (offset-adjusted) is earlier than the
first-leg arrival instant, because compare_times compares naive local
date+times and ignores the UTC-offset fields. -/
theorem reconciler_emits_offset_backward_connection :
    cexBadItinerary ∈ find_available_oneway_flights [cexOneStopCandidate] cexChecked ∧
    violatesInstantOrder cexBadItinerary = true := by
  constructor
  · decide
  · decide

/-- C1 (amended): for every candidate list and checked store, neither
reconciler emits a two-leg itinerary whose second-leg occurrence's naive
local departure date+time (ignoring UTC offsets) is earlier than the
first-leg occurrence's naive local arrival date+time. -/
theorem reconciler_never_emits_naive_backward_connection
    (possibleOneWay : List OneWayCandidate) (possibleRoundTrip : List RoundTripCandidate)
    (checked : Store) :
    (∀ it ∈ find_available_oneway_flights possibleOneWay checked,
      ∀ seconds, it.second_flight = some seconds →
        ∀ f1 ∈ it.first_flight, ∀ f2 ∈ seconds,
          ¬ (datetimeKey f2.date f2.departure.time < datetimeKey f1.date f1.arrival.time)) ∧
    (∀ it ∈ find_available_roundtrip_flights possibleRoundTrip checked,
      ∀ returns, it.return_flight = some returns →
        ∀ f1 ∈ it.outward_flight, ∀ f2 ∈ returns,
          ¬ (datetimeKey f2.date f2.departure.time < datetimeKey f1.date f1.arrival.time)) := by
  constructor
  · intro it hit seconds hsec f1 hf1 f2 hf2
    rcases mem_find_available_oneway_shape _ _ _ hit with ⟨g1, rfl⟩ | ⟨g1, g2, rfl, hcmp⟩
    · exact absurd hsec (by simp)
    · have hsec2 : [g2] = seconds := Option.some.inj hsec
      rw [← hsec2] at hf2
      have hf1e : f1 = g1 := List.eq_of_mem_singleton hf1
      have hf2e : f2 = g2 := List.eq_of_mem_singleton hf2
      rw [hf1e, hf2e]
      exact compare_times_not_lt _ _ _ _ hcmp
  · intro it hit returns hret f1 hf1 f2 hf2
    rcases mem_find_available_roundtrip_shape _ _ _ hit with ⟨g1, rfl⟩ | ⟨g1, g2, rfl, hcmp⟩
    · exact absurd hret (by simp)
    · have hret2 : [g2] = returns := Option.some.inj hret
      rw [← hret2] at hf2
      have hf1e : f1 = g1 := List.eq_of_mem_singleton hf1
      have hf2e : f2 = g2 := List.eq_of_mem_singleton hf2
      rw [hf1e, hf2e]
      exact compare_times_not_lt _ _ _ _ hcmp

/-- C1 witness: the amended theorem applied to the concrete candidate and
store, whose reconciler output contains the concrete two-leg itinerary. -/
theorem reconciler_never_emits_naive_backward_connection_witness :
    cexBadItinerary ∈ find_available_oneway_flights [cexOneStopCandidate] cexChecked ∧
    ¬ (datetimeKey cexSecondOcc.date cexSecondOcc.departure.time
        < datetimeKey cexFirstOcc.date cexFirstOcc.arrival.time) :=
  ⟨by decide,
    (reconciler_never_emits_naive_backward_connection [cexOneStopCandidate] [] cexChecked).1
      cexBadItinerary (by decide) [cexSecondOcc] rfl
      cexFirstOcc (by decide) cexSecondOcc (by decide)⟩

/-- Round-trip candidate Alpha to Beta and back whose return leg has no
matching checked occurrence, used by the C2 counterexample. -/
def rtCandidate : RoundTripCandidate :=
  { outward_flight := cexFirstLeg,
    return_flight := some { hash := legHash "Beta (BBB)" "Alpha (AAA)",
                            airport := "Beta (BBB)", destination := "Alpha (AAA)" } }

/-- The same candidate with the return_flight field absent, used by the C2
witness. -/
def rtNoReturnCandidate : RoundTripCandidate :=
  { outward_flight := cexFirstLeg, return_flight := none }

/-- A store holding one occurrence that matches the outward leg only. -/
def rtChecked : Store := [(cexFirstLeg.hash ++ "-28-12-2024", some [cexFirstOcc])]

/-- C2 counterexample: a round-trip candidate whose outward leg has a
matching checked occurrence but whose return leg matches nothing is
silently dropped by find_available_roundtrip_flights; no itinerary with a
null return is emitted. -/
theorem roundtrip_unmatched_return_dropped_cex :
    matching_checked_flights rtChecked rtCandidate.outward_flight = [cexFirstOcc] ∧
    rtCandidate.return_flight =
      some { hash := legHash "Beta (BBB)" "Alpha (AAA)",
             airport := "Beta (BBB)", destination := "Alpha (AAA)" } ∧
    matching_checked_flights rtChecked
      { hash := legHash "Beta (BBB)" "Alpha (AAA)",
        airport := "Beta (BBB)", destination := "Alpha (AAA)" } = [] ∧
    find_available_roundtrip_flights [rtCandidate] rtChecked = [] := by
  refine ⟨by decide, rfl, by decide, by decide⟩

/-- C2 (amended): an itinerary with a null return is emitted exactly for
candidates whose return_flight field itself is absent; a candidate whose
return leg is present but has no matching checked occurrence contributes
nothing (it is silently dropped rather than emitted with a null return). -/
theorem roundtrip_null_return_only_when_leg_absent :
    (∀ (possible : List RoundTripCandidate) (checked : Store)
      (flight_set : RoundTripCandidate),
      flight_set ∈ possible → flight_set.return_flight = none →
      ∀ oc ∈ matching_checked_flights checked flight_set.outward_flight,
        ({ outward_flight := [oc], return_flight := none } : AvailableRoundTrip)
          ∈ find_available_roundtrip_flights possible checked) ∧
    (∀ (checked : Store) (flight_set : RoundTripCandidate) (return_flight : Leg),
      flight_set.return_flight = some return_flight →
      matching_checked_flights checked return_flight = [] →
      find_available_roundtrip_flights [flight_set] checked = []) :=
  ⟨fun possible checked flight_set hin hret oc hoc =>
      roundtrip_none_return_emits possible checked flight_set hin hret oc hoc,
    fun checked flight_set return_flight hret hnone =>
      roundtrip_unmatched_return_dropped checked flight_set return_flight hret hnone⟩

/-- C2 witness: both parts of the amended theorem at concrete inputs — the
absent-return candidate is emitted with a null return, and the concrete
unmatched-return candidate from the counterexample store yields nothing. -/
theorem roundtrip_null_return_only_when_leg_absent_witness :
    (rtNoReturnCandidate ∈ [rtNoReturnCandidate] ∧
      rtNoReturnCandidate.return_flight = none ∧
      cexFirstOcc ∈ matching_checked_flights rtChecked rtNoReturnCandidate.outward_flight ∧
      ({ outward_flight := [cexFirstOcc], return_flight := none } : AvailableRoundTrip)
        ∈ find_available_roundtrip_flights [rtNoReturnCandidate] rtChecked) ∧
    (rtCandidate.return_flight =
        some { hash := legHash "Beta (BBB)" "Alpha (AAA)",
               airport := "Beta (BBB)", destination := "Alpha (AAA)" } ∧
      matching_checked_flights rtChecked
        { hash := legHash "Beta (BBB)" "Alpha (AAA)",
          airport := "Beta (BBB)", destination := "Alpha (AAA)" } = [] ∧
      find_available_roundtrip_flights [rtCandidate] rtChecked = []) :=
  ⟨⟨by decide, rfl, by decide,
      (roundtrip_null_return_only_when_leg_absent).1 [rtNoReturnCandidate] rtChecked
        rtNoReturnCandidate (by decide) rfl cexFirstOcc (by decide)⟩,
    ⟨rfl, by decide,
      (roundtrip_null_return_only_when_leg_absent).2 rtChecked rtCandidate
        { hash := legHash "Beta (BBB)" "Alpha (AAA)",
          airport := "Beta (BBB)", destination := "Alpha (AAA)" } rfl (by decide)⟩⟩

/-- Five concrete candidate flights used by the C3 counterexample. -/
def chunkFlights : List OneWayCandidate :=
  [directCand "A1 (AAA)" "B1 (BBB)", directCand "A2 (AAA)" "B2 (BBB)",
   directCand "A3 (AAA)" "B3 (BBB)", directCand "A4 (AAA)" "B4 (BBB)",
   directCand "A5 (AAA)" "B5 (BBB)"]

/-- C3 counterexample: with 5 flights and max_workers = 4, the chunk size
is max(1, 5 div 4) = 1, so five chunks are built and five worker processes
are launched — more than the requested worker bound of 4. -/
theorem parallel_chunking_exceeds_worker_bound :
    chunkFlights ≠ [] ∧
    (manage_parallel_scraping_chunks chunkFlights 4).length = 5 ∧
    4 < (manage_parallel_scraping_chunks chunkFlights 4).length := by
  have hlen : (manage_parallel_scraping_chunks chunkFlights 4).length = 5 := by
    rw [manage_parallel_scraping_chunks, slice_chunks_length _ (le_max_left 1 _)]
    decide
  refine ⟨by decide, hlen, ?_⟩
  rw [hlen]
  decide

/-- C3 (amended): manage_parallel_scraping partitions the flight list into
contiguous chunks of size max(1, n div max_workers) and launches one worker
per chunk; the number of launched workers is therefore the ceiling of
n / max(1, n div max_workers), which can exceed max_workers whenever the
chunk size does not divide n evenly. -/
theorem manage_parallel_chunk_count {α : Type} (possible_flights : List α)
    (max_workers : Nat) :
    (manage_parallel_scraping_chunks possible_flights max_workers).length =
      (possible_flights.length + max 1 (possible_flights.length / max_workers) - 1) /
        max 1 (possible_flights.length / max_workers) := by
  rw [manage_parallel_scraping_chunks]
  exact slice_chunks_length _ (le_max_left 1 _) _

/-- C4 counterexample: the value written after exhausted retries is None —
exactly the value written for a successful check that found no flights — so
the failure marker is not distinguishable from a legitimate no-flights
result in the checked-flights store. -/
theorem rest_failure_marker_indistinguishable :
    manage_rest_record [] "deadbeef" "28-12-2024" .failure =
      manage_rest_record [] "deadbeef" "28-12-2024" (.success []) ∧
    manage_rest_record [] "deadbeef" "28-12-2024" .failure =
      [("deadbeef-28-12-2024", none)] := by
  refine ⟨rfl, by decide⟩

/-- C4 (amended): after exhausted retries the worker writes None under the
(hash, date) key — the same value as a legitimate checked-but-no-flights
result, hence not distinguishable from it — and the request loop always
continues with the remaining leg/date pairs. -/
theorem rest_failure_marker_and_run_continues :
    (∀ (checked : Store) (h d : String),
      manage_rest_record checked h d .failure = storePut checked (h ++ "-" ++ d) none ∧
      manage_rest_record checked h d .failure = manage_rest_record checked h d (.success [])) ∧
    (∀ (checked : Store) (h d : String) (outcome : RestCheckOutcome)
      (rest : List (String × String × RestCheckOutcome)),
      manage_rest_process checked ((h, d, outcome) :: rest) =
        manage_rest_process (manage_rest_record checked h d outcome) rest) :=
  ⟨fun _ _ _ => ⟨rfl, rfl⟩, fun _ _ _ _ _ => rfl⟩

/-- Route graph for the C5 counterexample: Alpha and Delta reach each
other directly. -/
def c5Graph : Graph :=
  [("Alpha (AAA)", ["Delta (DDD)"]), ("Delta (DDD)", ["Alpha (AAA)"])]

/-- C5 counterexample: Delta is directly reachable from Alpha, Alpha is
directly reachable from Delta and is a departure airport, yet no round-trip
candidate is emitted because Delta is not in the destination-airport
filter, which the enumeration applies to the intermediate destination. -/
theorem roundtrip_enumeration_skips_unfiltered_destination :
    "Delta (DDD)" ∈ get_airport_destinations c5Graph "Alpha (AAA)" ∧
    "Alpha (AAA)" ∈ get_airport_destinations c5Graph "Delta (DDD)" ∧
    "Alpha (AAA)" ∈ (["Alpha (AAA)"] : List String) ∧
    find_possible_roundtrip_flights_from_airport c5Graph ["Alpha (AAA)"]
      ["Xray (XXX)"] "Alpha (AAA)" = [] := by
  refine ⟨by decide, by decide, by decide, by decide⟩

/-- C5 (amended): for each departure airport A, each destination D directly
reachable from A that is in the destination-airport set, and each airport B
directly reachable from D that is also a departure airport, the enumeration
emits the round-trip candidate with outward leg A to D and return leg D to
B. -/
theorem roundtrip_enumeration_complete_on_filtered (g : Graph)
    (departure_airports destination_airports : List String)
    (airport destination b : String)
    (hD : destination ∈ get_airport_destinations g airport)
    (hDf : destination ∈ destination_airports)
    (hB : b ∈ departure_airports)
    (hBD : b ∈ get_airport_destinations g destination) :
    roundTripCand airport destination b ∈
      find_possible_roundtrip_flights_from_airport g departure_airports
        destination_airports airport := by
  rw [find_possible_roundtrip_flights_from_airport]
  simp only [List.mem_flatMap]
  refine ⟨destination, ?_, ?_⟩
  · rw [List.mem_filter]
    exact ⟨hD, by simpa using hDf⟩
  · simp only [List.mem_map]
    refine ⟨b, ?_, rfl⟩
    rw [List.mem_filter]
    exact ⟨hB, by simpa using hBD⟩

/-- Route graph for the C5 witness: Alpha reaches Delta, Delta reaches
Beta, and Beta is a departure airport. -/
def c5WitnessGraph : Graph :=
  [("Alpha (AAA)", ["Delta (DDD)"]), ("Delta (DDD)", ["Beta (BBB)"])]

/-- C5 witness: the amended theorem applied to the concrete witness graph,
where the intermediate destination is in the destination filter. -/
theorem roundtrip_enumeration_complete_on_filtered_witness :
    "Delta (DDD)" ∈ get_airport_destinations c5WitnessGraph "Alpha (AAA)" ∧
    "Delta (DDD)" ∈ (["Delta (DDD)"] : List String) ∧
    "Beta (BBB)" ∈ (["Alpha (AAA)", "Beta (BBB)"] : List String) ∧
    "Beta (BBB)" ∈ get_airport_destinations c5WitnessGraph "Delta (DDD)" ∧
    roundTripCand "Alpha (AAA)" "Delta (DDD)" "Beta (BBB)" ∈
      find_possible_roundtrip_flights_from_airport c5WitnessGraph
        ["Alpha (AAA)", "Beta (BBB)"] ["Delta (DDD)"] "Alpha (AAA)" :=
  ⟨by decide, by decide, by decide, by decide,
    roundtrip_enumeration_complete_on_filtered c5WitnessGraph
      ["Alpha (AAA)", "Beta (BBB)"] ["Delta (DDD)"] "Alpha (AAA)" "Delta (DDD)"
      "Beta (BBB)" (by decide) (by decide) (by decide) (by decide)⟩

/-- C6: writing the same (leg hash, date) key with the same result twice
through DataManager.add_checked_flight leaves the in-memory checked-flights
store in the same observable state as writing it once; the write is a total
dict assignment and raises nothing. -/
theorem add_checked_flight_idempotent (st : Store) (flight : Leg)
    (result : Option (List CheckedFlight)) (date : String) :
    add_checked_flight (add_checked_flight st flight result date) flight result date =
      add_checked_flight st flight result date :=
  storePut_idem st (flight.hash ++ "-" ++ date) result

/-- Route graph used by the C7 and C8 witnesses: AAA reaches BBB, BBB
reaches CCC. -/
def witnessGraph : Graph := [("AAA", ["BBB"]), ("BBB", ["CCC"])]

/-- C7: every two-leg candidate emitted by the enumerators — one-stop
candidates of find_possible_one_stop_flights and round-trip candidates of
find_possible_roundtrip_flights_from_airport — has the destination of its
first (outward) leg equal to the origin of its second (return) leg. -/
theorem enumerated_two_leg_connection_invariant (g : Graph)
    (departure_airports destination_airports : List String) (max_stops : Nat)
    (airport : String) :
    (∀ c ∈ find_possible_one_stop_flights g departure_airports destination_airports
        max_stops,
      ∀ s, c.second_flight = some s → c.first_flight.destination = s.airport) ∧
    (∀ c ∈ find_possible_roundtrip_flights_from_airport g departure_airports
        destination_airports airport,
      ∀ r, c.return_flight = some r → c.outward_flight.destination = r.airport) := by
  constructor
  · intro c hc s hs
    rcases find_possible_one_stop_flights_shape _ _ _ _ _ hc with ⟨a, d, rfl⟩ |
      ⟨a, cur, d, rfl⟩
    · exact absurd hs (by simp [directCand])
    · have hleg := Option.some.inj hs
      rw [← hleg]
      rfl
  · intro c hc r hr
    rw [find_possible_roundtrip_flights_from_airport] at hc
    simp only [List.mem_flatMap, List.mem_map] at hc
    rcases hc with ⟨destination, _, b, _, rfl⟩
    have hleg := Option.some.inj hr
    rw [← hleg]
    rfl

/-- C7 witness: the invariant theorem applied to a concrete one-stop
candidate enumerated from the witness graph and to a concrete round-trip
candidate. -/
theorem enumerated_two_leg_connection_invariant_witness :
    (oneStopCand "AAA" "BBB" "CCC" ∈
      find_possible_one_stop_flights witnessGraph ["AAA"] ["CCC"] 1) ∧
    (oneStopCand "AAA" "BBB" "CCC").first_flight.destination = "BBB" ∧
    (roundTripCand "AAA" "BBB" "AAA" ∈
      find_possible_roundtrip_flights_from_airport
        [("AAA", ["BBB"]), ("BBB", ["AAA"])] ["AAA"] ["BBB"] "AAA") ∧
    (roundTripCand "AAA" "BBB" "AAA").outward_flight.destination = "BBB" := by
  have hmem : oneStopCand "AAA" "BBB" "CCC" ∈
      find_possible_one_stop_flights witnessGraph ["AAA"] ["CCC"] 1 := by
    simp [find_possible_one_stop_flights, one_stop_loop, process_destinations,
      get_airport_destinations, insertVisited, directCand, oneStopCand, legHash]
  have hmem2 : roundTripCand "AAA" "BBB" "AAA" ∈
      find_possible_roundtrip_flights_from_airport
        [("AAA", ["BBB"]), ("BBB", ["AAA"])] ["AAA"] ["BBB"] "AAA" := by decide
  exact ⟨hmem,
    (enumerated_two_leg_connection_invariant witnessGraph ["AAA"] ["CCC"] 1 "AAA").1
      _ hmem _ rfl,
    hmem2,
    (enumerated_two_leg_connection_invariant [("AAA", ["BBB"]), ("BBB", ["AAA"])]
      ["AAA"] ["BBB"] 1 "AAA").2 _ hmem2 _ rfl⟩

/-- C8: with max_stops = 0, find_possible_one_stop_flights emits only
direct-shaped candidates — every emitted candidate has second_flight
absent, and no one-stop-shaped candidate is ever produced. -/
theorem one_stop_zero_stops_only_direct (g : Graph)
    (departure_airports destination_airports : List String) :
    ∀ c ∈ find_possible_one_stop_flights g departure_airports destination_airports 0,
      c.second_flight = none := by
  intro c hc
  rw [find_possible_one_stop_flights] at hc
  simp only [List.mem_flatMap] at hc
  rcases hc with ⟨airport, _, hloop⟩
  have hm0 : (if (0 : Nat) > 1 then 1 else 0) = 0 := rfl
  rw [hm0] at hloop
  rcases one_stop_loop_shape _ _ _ _ _ _ _ _ hloop with hnil | ⟨d, rfl⟩ | ⟨hm, _⟩
  · exact absurd hnil (List.not_mem_nil c)
  · rfl
  · exact absurd hm (by decide)

/-- C8 witness: the theorem applied to a concrete direct candidate
enumerated from the witness graph with max_stops = 0. -/
theorem one_stop_zero_stops_only_direct_witness :
    (directCand "AAA" "BBB" ∈
      find_possible_one_stop_flights witnessGraph ["AAA"] ["BBB"] 0) ∧
    (directCand "AAA" "BBB").second_flight = none := by
  have hmem : directCand "AAA" "BBB" ∈
      find_possible_one_stop_flights witnessGraph ["AAA"] ["BBB"] 0 := by
    simp [find_possible_one_stop_flights, one_stop_loop, process_destinations,
      get_airport_destinations, insertVisited, directCand, legHash]
  exact ⟨hmem, one_stop_zero_stops_only_direct witnessGraph ["AAA"] ["BBB"] _ hmem⟩

/-- C9: for every candidate list and checked store, the deduplicated lists
returned by find_available_oneway_flights and
find_available_roundtrip_flights contain no two structurally equal
itineraries. -/
theorem reconciler_output_no_structural_duplicates
    (possibleOneWay : List OneWayCandidate) (possibleRoundTrip : List RoundTripCandidate)
    (checked : Store) :
    (find_available_oneway_flights possibleOneWay checked).Pairwise (fun a b => a ≠ b) ∧
    (find_available_roundtrip_flights possibleRoundTrip checked).Pairwise
      (fun a b => a ≠ b) := by
  constructor
  · rw [find_available_oneway_flights]
    exact pairwise_ne_remove_duplicates _
  · rw [find_available_roundtrip_flights]
    exact pairwise_ne_remove_duplicates _

/-- C10: the chunks built by manage_parallel_scraping are contiguous slices
whose concatenation, in order, is exactly the input flight list — every
flight is assigned to exactly one chunk, none lost, none duplicated, order
preserved. -/
theorem parallel_chunks_concatenate_to_input {α : Type} (possible_flights : List α)
    (max_workers : Nat) :
    (manage_parallel_scraping_chunks possible_flights max_workers).flatten =
      possible_flights := by
  rw [manage_parallel_scraping_chunks]
  exact slice_chunks_flatten _ (le_max_left 1 _) _
